import Mathlib

/-!
Verification of the access-control layer of the CRM backend.

The development shallowly embeds the data model (`src/models.py`), the
authentication module (`src/auth.py`) and the resource routers
(`src/routers/*.py`) of the repository.  Python strings are modelled as
Lean `String`s, Python ints as `Int`, SQLAlchemy tables as Lean lists,
SQLAlchemy queries as list operations (`filter?`/`find?`/`drop`/`take`),
and the relational store's commit step — an external collaborator whose
failures the handlers catch — as an explicit `CommitOutcome` oracle
argument.  HTTP exceptions become an `HTTPError` value in an `Except`.
-/

namespace CRM

/-! ### Model of Python `str()` and `int()` on integers

The token layer stores the subject id with `str(user.id)` and parses it
back with `int(user_id_str)`.  These Python builtins are external to the
repository; they are modelled here as canonical decimal printing and
parsing on lists of characters.  (Python's `int()` additionally accepts
surrounding whitespace, a leading `+`, and underscores; those inputs are
never produced by `str` and are immaterial to the claims, so the model
parses only the canonical forms.) -/

/-- Decimal digit characters of a natural number, most significant digit
first: the model of Python `str()` on a nonnegative int. -/
def natToChars (n : Nat) : List Char :=
  if n = 0 then ['0']
  else ((Nat.digits 10 n).reverse).map (fun d => Char.ofNat (48 + d))

/-- Is `c` one of the characters `0`-`9`? -/
def isDigitChar (c : Char) : Bool := 48 ≤ c.toNat && c.toNat ≤ 57

/-- Parse a nonempty all-digit character list as a natural number:
the model of Python `int()` on a canonical nonnegative literal. -/
def charsToNat? (cs : List Char) : Option Nat :=
  if cs = [] then none
  else if cs.all isDigitChar then
    some (cs.foldl (fun a c => a * 10 + (c.toNat - 48)) 0)
  else none

/-- Python `str()` on an arbitrary int: a leading `-` for negatives. -/
def intToChars (i : Int) : List Char :=
  if i < 0 then '-' :: natToChars i.natAbs else natToChars i.toNat

/-- Python `int()` on an arbitrary canonical integer literal. -/
def charsToInt? (cs : List Char) : Option Int :=
  match cs with
  | [] => none
  | c :: rest =>
    if c = '-' then (charsToNat? rest).map (fun n : Nat => -(n : Int))
    else (charsToNat? (c :: rest)).map (fun n : Nat => (n : Int))

/-- The model of Python `str(i)` producing a Lean `String`. -/
def pyStr (i : Int) : String := ⟨intToChars i⟩

/-- The model of Python `int(s)` (with `ValueError` as `none`). -/
def pyInt? (s : String) : Option Int := charsToInt? s.data

theorem toNat_ofNat_small {m : Nat} (h : m < 55296) : (Char.ofNat m).toNat = m := by
  unfold Char.ofNat
  rw [dif_pos (Or.inl h)]
  rfl

theorem foldl_digits_eq (l : List Nat) (a : Nat) :
    l.reverse.foldl (fun x d => x * 10 + d) a = a * 10 ^ l.length + Nat.ofDigits 10 l := by
  induction l generalizing a with
  | nil => simp
  | cons d ds ih =>
    simp only [List.reverse_cons, List.foldl_append, List.foldl_cons, List.foldl_nil, ih,
      Nat.ofDigits_cons, List.length_cons, pow_succ]
    ring

theorem natToChars_ne_nil (n : Nat) : natToChars n ≠ [] := by
  unfold natToChars
  split
  · simp
  · next h =>
    simp only [ne_eq, List.map_eq_nil_iff, List.reverse_eq_nil_iff]
    exact Nat.digits_ne_nil_iff_ne_zero.mpr h

theorem natToChars_all_digits (n : Nat) : (natToChars n).all isDigitChar = true := by
  unfold natToChars
  split
  · decide
  · rw [List.all_eq_true]
    intro c hc
    rw [List.mem_map] at hc
    obtain ⟨d, hd, rfl⟩ := hc
    have hdlt : d < 10 :=
      Nat.digits_lt_base (by norm_num) (List.mem_reverse.mp hd)
    simp only [isDigitChar, toNat_ofNat_small (show 48 + d < 55296 by omega)]
    simp only [Bool.and_eq_true, decide_eq_true_eq]
    omega

theorem charsToNat?_natToChars (n : Nat) : charsToNat? (natToChars n) = some n := by
  unfold charsToNat?
  rw [if_neg (natToChars_ne_nil n), if_pos (natToChars_all_digits n)]
  by_cases h : n = 0
  · subst h; decide
  · unfold natToChars
    rw [if_neg h, List.foldl_map]
    have hfold :
        (Nat.digits 10 n).reverse.foldl
            (fun a d => a * 10 + ((Char.ofNat (48 + d)).toNat - 48)) 0 =
          (Nat.digits 10 n).reverse.foldl (fun a d => a * 10 + d) 0 := by
      apply List.foldl_ext
      intro a d hd
      have hdlt : d < 10 :=
        Nat.digits_lt_base (by norm_num) (List.mem_reverse.mp hd)
      rw [toNat_ofNat_small (show 48 + d < 55296 by omega)]
      omega
    rw [hfold, foldl_digits_eq, Nat.zero_mul, Nat.zero_add, Nat.ofDigits_digits]

theorem natToChars_head_ne_minus (n : Nat) (c : Char) (cs : List Char)
    (h : natToChars n = c :: cs) : ¬ c = '-' := by
  intro hc
  have hall := natToChars_all_digits n
  rw [h, List.all_cons, Bool.and_eq_true] at hall
  rw [hc] at hall
  simp [isDigitChar] at hall

/-- Python `int(str(i)) == i`: parsing the canonical decimal form
recovers the integer. -/
theorem pyInt?_pyStr (i : Int) : pyInt? (pyStr i) = some i := by
  show charsToInt? (intToChars i) = some i
  unfold intToChars
  by_cases h : i < 0
  · rw [if_pos h]
    show charsToInt? ('-' :: natToChars i.natAbs) = some i
    rw [charsToInt?]
    rw [if_pos rfl, charsToNat?_natToChars]
    simp only [Option.map_some']
    congr 1
    omega
  · rw [if_neg h]
    cases hcs : natToChars i.toNat with
    | nil => exact absurd hcs (natToChars_ne_nil _)
    | cons c cs =>
      rw [charsToInt?]
      rw [if_neg (natToChars_head_ne_minus _ _ _ hcs), ← hcs, charsToNat?_natToChars]
      simp only [Option.map_some']
      congr 1
      omega

/-! ### Data model (`src/models.py`)

Tables become Lean structures; the server-managed `created_at` /
`updated_at` timestamp columns are never consulted by any handler and are
omitted.  SQL `date` and `DECIMAL(10,2)` columns are modelled as integers
(day count, amount in cents); their values are never inspected. -/

structure User where
  id : Int
  email : String
  role : String
  hashed_password : String
  name : String
  city : String
  is_active : Bool
deriving Repr, DecidableEq

structure Client where
  id : Int
  user_id : Int
  name : String
  company_name : Option String := none
  business_category : String
  contact_email : Option String := none
  contact_phone : Option String := none
  status : Option String := none
  signed_date : Option Int := none
  estimated_monthly_revenue : Option Int := none
deriving Repr, DecidableEq

structure Prospect where
  id : Int
  user_id : Int
  name : String
  company_name : Option String := none
  business_category : String
  contact_email : Option String := none
  contact_phone : Option String := none
  interest_level : Option String := none
  status : String
  next_follow_up_date : Option Int := none
  notes : Option String := none
deriving Repr, DecidableEq

structure ContentItem where
  id : Int
  client_id : Int
  content_type : String
  title : Option String := none
  description : Option String := none
  instagram_post_url : String
deriving Repr, DecidableEq

/-- The relational store: one list per table, in insertion order.
Primary keys are unique in any store reachable by the application. -/
structure DB where
  users : List User := []
  clients : List Client := []
  prospects : List Prospect := []
  content_items : List ContentItem := []
deriving Repr, DecidableEq

/-! ### Authentication module (`src/auth.py`) -/

/-- The decoded JWT payload carried as the per-request identity claim. -/
structure TokenData where
  id : Option Int := none
  role : String
  city : Option String := none
deriving Repr, DecidableEq

/-- A JWT as handled through the external `jose` library: the payload
fields the application reads plus the embedded expiry, together with
whether the token's signature verifies against the server secret
(`True` for every token the server itself signed). -/
structure JWT where
  sub : Option String := none
  role : Option String := none
  city : Option String := none
  exp : Int
  sigOk : Bool
deriving Repr, DecidableEq

/-- `settings.ACCESS_TOKEN_EXPIRE_MINUTES` (config default 60). -/
def ACCESS_TOKEN_EXPIRE_MINUTES : Int := 60

/-- Model of `passlib`'s bcrypt hash (an external collaborator): an
injective one-way tag.  No claim inspects hashing internals; the
handlers only ever compare a stored hash against a fresh plaintext. -/
def hash_password (password : String) : String := "$bcrypt$" ++ password

def verify_password (plain_password hashed_password : String) : Bool :=
  hash_password plain_password == hashed_password

/-- An HTTPException: status code, detail message, and whether the
response carries the `WWW-Authenticate: Bearer` challenge header. -/
structure HTTPError where
  status_code : Nat
  detail : String
  www_authenticate : Bool
deriving Repr, DecidableEq

def credentials_exception : HTTPError :=
  ⟨401, "Could not validate credentials", true⟩

def expired_exception : HTTPError :=
  ⟨401, "Token has expired", true⟩

/-- The generic 500 response `Erreur serveur: str(e)` produced by the
routers' catch-all `except Exception` handlers; the argument stands for
`str(e)` of the caught exception. -/
def server_error (msg : String) : HTTPError :=
  ⟨500, "Erreur serveur: " ++ msg, false⟩

/-- `create_access_token`: copies the payload dict (the callers pass
`sub`, `role`, `city`) and sets `exp` to now plus the configured TTL,
then signs with the server secret. -/
def create_access_token (sub role city : Option String) (now : Int) : JWT :=
  { sub := sub, role := role, city := city,
    exp := now + ACCESS_TOKEN_EXPIRE_MINUTES * 60, sigOk := true }

/-- `get_current_user`: decode and validate the bearer token.  `jose`'s
`jwt.decode` verifies the signature first (raising `JWTError`) and then
the `exp` claim (raising `ExpiredSignatureError`); the handler maps the
expiry error to its own distinct 401, and every other failure — bad
signature, missing `sub` or `role`, unparseable subject id, or any
unexpected exception — to the generic credentials 401. -/
def get_current_user (token : JWT) (now : Int) : Except HTTPError TokenData :=
  if token.sigOk = false then .error credentials_exception
  else if token.exp < now then .error expired_exception
  else
    match token.sub, token.role with
    | some user_id_str, some user_role =>
      match pyInt? user_id_str with
      | some user_id => .ok { id := some user_id, role := user_role, city := token.city }
      | none => .error credentials_exception
    | _, _ => .error credentials_exception

/-- `get_admin_user`: passes an admin claim through, 403 otherwise. -/
def get_admin_user (current_user : TokenData) : Except HTTPError TokenData :=
  if current_user.role ≠ "admin" then
    .error ⟨403, "Not enough permissions", false⟩
  else .ok current_user

/-- Outcome of the store's commit step for one mutating request.  The
store is an external collaborator; the handlers observe it only through
the exception raised at `db.commit()`, so it enters the model as an
oracle argument: `integrityError` is SQLAlchemy's `IntegrityError`
(uniqueness / constraint violation), `otherError` any other exception. -/
inductive CommitOutcome
  | ok
  | integrityError
  | otherError
deriving Repr, DecidableEq

/-! ### Clients router (`src/routers/clients.py`)

Request-body schemas (`src/schemas.py`) become structures whose optional
fields are `none` when absent from the request; pydantic's parse-time
default for `status` is applied where the handler dumps the full model
(create), and `model_dump(exclude_unset=True)` (update) skips `none`
fields.  An explicit `null` in a request body is identified with an
absent field; no handler distinguishes the two in a way a claim
depends on. -/

structure ClientCreate where
  name : String
  company_name : Option String := none
  business_category : String
  contact_email : Option String := none
  contact_phone : Option String := none
  status : Option String := none
  signed_date : Option Int := none
  estimated_monthly_revenue : Option Int := none
deriving Repr, DecidableEq

/-- `GET /clients/`: admins see the whole table, others only rows whose
`user_id` equals the claim's id; pagination via `skip`/`limit`. -/
def read_clients (current_user : TokenData) (db : DB) (skip limit : Nat) :
    List Client :=
  if current_user.role = "admin" then
    (db.clients.drop skip).take limit
  else
    (((db.clients.filter fun c => some c.user_id == current_user.id).drop skip).take limit)

/-- The ORM row built by `create_client` from the dumped request body
(pydantic fills `status` with its default `to_do`), the path's new
primary key, and the creator's id. -/
def newClient (cc : ClientCreate) (newId uid : Int) : Client :=
  { id := newId, user_id := uid, name := cc.name,
    company_name := cc.company_name, business_category := cc.business_category,
    contact_email := cc.contact_email, contact_phone := cc.contact_phone,
    status := some (cc.status.getD "to_do"), signed_date := cc.signed_date,
    estimated_monthly_revenue := cc.estimated_monthly_revenue }

/-- `POST /clients/`: insert with `user_id = current_user.id`;
`IntegrityError` → rollback and 400, any other failure → rollback and
500. -/
def create_client (client : ClientCreate) (current_user : TokenData) (db : DB)
    (newId : Int) (outcome : CommitOutcome) : DB × Except HTTPError Client :=
  match outcome with
  | .integrityError =>
    (db, .error ⟨400, "Une erreur est survenue lors de la création du client", false⟩)
  | .otherError => (db, .error (server_error "Exception"))
  | .ok =>
    match current_user.id with
    | some uid =>
      let c := newClient client newId uid
      ({ db with clients := db.clients ++ [c] }, .ok c)
    | none =>
      -- a claim without a subject id would insert a NULL owner, which the
      -- store's NOT NULL constraint rejects with an IntegrityError
      (db, .error ⟨400, "Une erreur est survenue lors de la création du client", false⟩)

/-- `GET /clients/{id}`: fetch by primary key (404 if absent), then the
ownership check (403 for a non-admin who is not the owner). -/
def read_client (current_user : TokenData) (db : DB) (client_id : Int) :
    Except HTTPError Client :=
  match db.clients.find? (fun c => c.id == client_id) with
  | none => .error ⟨404, "Client non trouvé", false⟩
  | some client =>
    if current_user.role ≠ "admin" ∧ some client.user_id ≠ current_user.id then
      .error ⟨403, "Accès non autorisé à ce client", false⟩
    else .ok client

/-- `setattr` loop of `update_client` over `model_dump(exclude_unset)`:
required fields are always present, optional ones only when set. -/
def applyClientUpdate (upd : ClientCreate) (c : Client) : Client :=
  { c with
    name := upd.name
    business_category := upd.business_category
    company_name := upd.company_name.or c.company_name
    contact_email := upd.contact_email.or c.contact_email
    contact_phone := upd.contact_phone.or c.contact_phone
    status := upd.status.or c.status
    signed_date := upd.signed_date.or c.signed_date
    estimated_monthly_revenue := upd.estimated_monthly_revenue.or c.estimated_monthly_revenue }

/-- `PUT /clients/{id}`: 404, then ownership 403, then the write.  The
handler has no `IntegrityError` branch: every commit failure — a
uniqueness violation included — is caught by `except Exception` and
becomes the generic 500 after rollback. -/
def update_client (current_user : TokenData) (client_update : ClientCreate)
    (db : DB) (client_id : Int) (outcome : CommitOutcome) :
    DB × Except HTTPError Client :=
  match db.clients.find? (fun c => c.id == client_id) with
  | none => (db, .error ⟨404, "Client non trouvé", false⟩)
  | some db_client =>
    if current_user.role ≠ "admin" ∧ some db_client.user_id ≠ current_user.id then
      (db, .error ⟨403, "Accès non autorisé à ce client", false⟩)
    else
      match outcome with
      | .ok =>
        ({ db with clients := db.clients.map fun c =>
            if c.id = client_id then applyClientUpdate client_update c else c },
         .ok (applyClientUpdate client_update db_client))
      | _ => (db, .error (server_error "Exception"))

/-- `DELETE /clients/{id}`: 404, ownership 403, then the delete; any
commit failure rolls back into the generic 500. -/
def delete_client (current_user : TokenData) (db : DB) (client_id : Int)
    (outcome : CommitOutcome) : DB × Except HTTPError Unit :=
  match db.clients.find? (fun c => c.id == client_id) with
  | none => (db, .error ⟨404, "Client non trouvé", false⟩)
  | some db_client =>
    if current_user.role ≠ "admin" ∧ some db_client.user_id ≠ current_user.id then
      (db, .error ⟨403, "Accès non autorisé à ce client", false⟩)
    else
      match outcome with
      | .ok =>
        ({ db with clients := db.clients.filter fun c => !(c.id == client_id) }, .ok ())
      | _ => (db, .error (server_error "Exception"))

/-! ### Prospects router (`src/routers/prospects.py`) -/

structure ProspectCreate where
  name : String
  company_name : Option String := none
  business_category : String
  contact_email : Option String := none
  contact_phone : Option String := none
  interest_level : Option String := none
  status : Option String := none
  next_follow_up_date : Option Int := none
  notes : Option String := none
deriving Repr, DecidableEq

/-- `GET /prospects/`: same ownership filtering as clients. -/
def read_prospects (current_user : TokenData) (db : DB) (skip limit : Nat) :
    List Prospect :=
  if current_user.role = "admin" then
    (db.prospects.drop skip).take limit
  else
    (((db.prospects.filter fun p => some p.user_id == current_user.id).drop skip).take limit)

/-- The ORM row built by `create_prospect` (pydantic's default for the
required `status` field is `new_inquiry`). -/
def newProspect (pc : ProspectCreate) (newId uid : Int) : Prospect :=
  { id := newId, user_id := uid, name := pc.name,
    company_name := pc.company_name, business_category := pc.business_category,
    contact_email := pc.contact_email, contact_phone := pc.contact_phone,
    interest_level := pc.interest_level, status := pc.status.getD "new_inquiry",
    next_follow_up_date := pc.next_follow_up_date, notes := pc.notes }

/-- `POST /prospects/`: like `create_client`. -/
def create_prospect (prospect : ProspectCreate) (current_user : TokenData)
    (db : DB) (newId : Int) (outcome : CommitOutcome) :
    DB × Except HTTPError Prospect :=
  match outcome with
  | .integrityError =>
    (db, .error ⟨400, "Une erreur est survenue lors de la création du prospect", false⟩)
  | .otherError => (db, .error (server_error "Exception"))
  | .ok =>
    match current_user.id with
    | some uid =>
      let p := newProspect prospect newId uid
      ({ db with prospects := db.prospects ++ [p] }, .ok p)
    | none =>
      (db, .error ⟨400, "Une erreur est survenue lors de la création du prospect", false⟩)

/-- `GET /prospects/{id}`: 404 first, then ownership 403. -/
def read_prospect (current_user : TokenData) (prospect_id : Int) (db : DB) :
    Except HTTPError Prospect :=
  match db.prospects.find? (fun p => p.id == prospect_id) with
  | none => .error ⟨404, "Prospect non trouvé", false⟩
  | some prospect =>
    if current_user.role ≠ "admin" ∧ some prospect.user_id ≠ current_user.id then
      .error ⟨403, "Accès non autorisé à ce prospect", false⟩
    else .ok prospect

def applyProspectUpdate (upd : ProspectCreate) (p : Prospect) : Prospect :=
  { p with
    name := upd.name
    business_category := upd.business_category
    company_name := upd.company_name.or p.company_name
    contact_email := upd.contact_email.or p.contact_email
    contact_phone := upd.contact_phone.or p.contact_phone
    interest_level := upd.interest_level.or p.interest_level
    status := upd.status.getD p.status
    next_follow_up_date := upd.next_follow_up_date.or p.next_follow_up_date
    notes := upd.notes.or p.notes }

/-- `PUT /prospects/{id}`: like `update_client` — no `IntegrityError`
branch, every commit failure becomes the generic 500 after rollback. -/
def update_prospect (prospect_update : ProspectCreate) (current_user : TokenData)
    (prospect_id : Int) (db : DB) (outcome : CommitOutcome) :
    DB × Except HTTPError Prospect :=
  match db.prospects.find? (fun p => p.id == prospect_id) with
  | none => (db, .error ⟨404, "Prospect non trouvé", false⟩)
  | some db_prospect =>
    if current_user.role ≠ "admin" ∧ some db_prospect.user_id ≠ current_user.id then
      (db, .error ⟨403, "Accès non autorisé à ce prospect", false⟩)
    else
      match outcome with
      | .ok =>
        ({ db with prospects := db.prospects.map fun p =>
            if p.id = prospect_id then applyProspectUpdate prospect_update p else p },
         .ok (applyProspectUpdate prospect_update db_prospect))
      | _ => (db, .error (server_error "Exception"))

/-- `DELETE /prospects/{id}`. -/
def delete_prospect (current_user : TokenData) (prospect_id : Int) (db : DB)
    (outcome : CommitOutcome) : DB × Except HTTPError Unit :=
  match db.prospects.find? (fun p => p.id == prospect_id) with
  | none => (db, .error ⟨404, "Prospect non trouvé", false⟩)
  | some db_prospect =>
    if current_user.role ≠ "admin" ∧ some db_prospect.user_id ≠ current_user.id then
      (db, .error ⟨403, "Accès non autorisé à ce prospect", false⟩)
    else
      match outcome with
      | .ok =>
        ({ db with prospects := db.prospects.filter fun p => !(p.id == prospect_id) }, .ok ())
      | _ => (db, .error (server_error "Exception"))

/-! ### Content-items router (`src/routers/content_items.py`)

Content items are owned transitively: every ownership decision joins to
the parent `Client` row and compares its `user_id`. -/

structure ContentItemCreate where
  content_type : String
  title : Option String := none
  description : Option String := none
  instagram_post_url : String
deriving Repr, DecidableEq

/-- `GET /content-items/`: optional `client_id` filter; non-admins are
restricted, via a join to `clients`, to items whose parent client they
own. -/
def read_content_items (current_user : TokenData) (db : DB)
    (client_id : Option Int) (skip limit : Nat) : List ContentItem :=
  let q : List ContentItem := db.content_items
  let q : List ContentItem :=
    match client_id with
    | some cid => q.filter fun ci => ci.client_id == cid
    | none => q
  let q : List ContentItem :=
    if current_user.role ≠ "admin" then
      q.filter fun ci => db.clients.any fun c =>
        c.id == ci.client_id && some c.user_id == current_user.id
    else q
  (q.drop skip).take limit

def newContentItem (cic : ContentItemCreate) (newId cid : Int) : ContentItem :=
  { id := newId, client_id := cid, content_type := cic.content_type,
    title := cic.title, description := cic.description,
    instagram_post_url := cic.instagram_post_url }

/-- `POST /content-items/?client_id=..`: the parent client must exist
(404) and belong to the caller unless admin (403) before anything is
written; then `IntegrityError` → 400, other failures → 500. -/
def create_content_item (content_item : ContentItemCreate) (client_id : Int)
    (current_user : TokenData) (db : DB) (newId : Int) (outcome : CommitOutcome) :
    DB × Except HTTPError ContentItem :=
  match db.clients.find? (fun c => c.id == client_id) with
  | none => (db, .error ⟨404, "Client non trouvé", false⟩)
  | some client =>
    if current_user.role ≠ "admin" ∧ some client.user_id ≠ current_user.id then
      (db, .error ⟨403, "Accès non autorisé à ce client", false⟩)
    else
      match outcome with
      | .ok =>
        let ci := newContentItem content_item newId client_id
        ({ db with content_items := db.content_items ++ [ci] }, .ok ci)
      | .integrityError =>
        (db, .error ⟨400, "Une erreur est survenue lors de la création du contenu", false⟩)
      | .otherError => (db, .error (server_error "Exception"))

/-- `GET /content-items/{id}`: 404 if the item is absent, then the
ownership check against the parent client.  The `and` in the Python
condition short-circuits: an admin never dereferences the client, while
for a non-admin a dangling `client_id` makes the handler dereference
`None` and the `AttributeError` escapes as a framework 500. -/
def read_content_item (db : DB) (content_item_id : Int)
    (current_user : TokenData) : Except HTTPError ContentItem :=
  match db.content_items.find? (fun ci => ci.id == content_item_id) with
  | none => .error ⟨404, "Contenu non trouvé", false⟩
  | some content_item =>
    if current_user.role ≠ "admin" then
      match db.clients.find? (fun c => c.id == content_item.client_id) with
      | none => .error ⟨500, "Internal Server Error", false⟩
      | some client =>
        if some client.user_id ≠ current_user.id then
          .error ⟨403, "Accès non autorisé à ce contenu", false⟩
        else .ok content_item
    else .ok content_item

def applyContentItemUpdate (upd : ContentItemCreate) (ci : ContentItem) :
    ContentItem :=
  { ci with
    content_type := upd.content_type
    title := upd.title.or ci.title
    description := upd.description.or ci.description
    instagram_post_url := upd.instagram_post_url }

/-- The `try` body of `update_content_item` (setattr loop + commit),
reached once the 404 and ownership checks have passed. -/
def update_content_item_write (content_item_update : ContentItemCreate)
    (content_item_id : Int) (db : DB) (db_content_item : ContentItem)
    (outcome : CommitOutcome) : DB × Except HTTPError ContentItem :=
  match outcome with
  | .ok =>
    ({ db with content_items := db.content_items.map fun (ci : ContentItem) =>
        if ci.id = content_item_id then
          applyContentItemUpdate content_item_update ci
        else ci },
     .ok (applyContentItemUpdate content_item_update db_content_item))
  | _ => (db, .error (server_error "Exception"))

/-- `PUT /content-items/{id}`: like `update_client`, with the transitive
ownership check of `read_content_item`; no `IntegrityError` branch. -/
def update_content_item (content_item_update : ContentItemCreate)
    (content_item_id : Int) (current_user : TokenData) (db : DB)
    (outcome : CommitOutcome) : DB × Except HTTPError ContentItem :=
  match db.content_items.find? (fun ci => ci.id == content_item_id) with
  | none => (db, .error ⟨404, "Contenu non trouvé", false⟩)
  | some db_content_item =>
    if current_user.role ≠ "admin" then
      match db.clients.find? (fun c => c.id == db_content_item.client_id) with
      | none => (db, .error ⟨500, "Internal Server Error", false⟩)
      | some client =>
        if some client.user_id ≠ current_user.id then
          (db, .error ⟨403, "Accès non autorisé à ce contenu", false⟩)
        else update_content_item_write content_item_update content_item_id db
               db_content_item outcome
    else update_content_item_write content_item_update content_item_id db
           db_content_item outcome

/-- The `try` body of `delete_content_item`. -/
def delete_content_item_write (content_item_id : Int) (db : DB)
    (outcome : CommitOutcome) : DB × Except HTTPError Unit :=
  match outcome with
  | .ok =>
    ({ db with content_items :=
        db.content_items.filter fun ci => !(ci.id == content_item_id) }, .ok ())
  | _ => (db, .error (server_error "Exception"))

/-- `DELETE /content-items/{id}`. -/
def delete_content_item (content_item_id : Int) (current_user : TokenData)
    (db : DB) (outcome : CommitOutcome) : DB × Except HTTPError Unit :=
  match db.content_items.find? (fun ci => ci.id == content_item_id) with
  | none => (db, .error ⟨404, "Contenu non trouvé", false⟩)
  | some db_content_item =>
    if current_user.role ≠ "admin" then
      match db.clients.find? (fun c => c.id == db_content_item.client_id) with
      | none => (db, .error ⟨500, "Internal Server Error", false⟩)
      | some client =>
        if some client.user_id ≠ current_user.id then
          (db, .error ⟨403, "Accès non autorisé à ce contenu", false⟩)
        else delete_content_item_write content_item_id db outcome
    else delete_content_item_write content_item_id db outcome

/-! ### Users router (`src/routers/users.py`) -/

structure UserCreate where
  email : String
  password : String
  role : String := "user"
  name : String
  city : String
deriving Repr, DecidableEq

structure UserUpdate where
  email : Option String := none
  password : Option String := none
  role : Option String := none
  name : Option String := none
  city : Option String := none
  is_active : Option Bool := none
deriving Repr, DecidableEq

/-- `POST /users/` (admin-only dependency, then a duplicate-email
pre-check answering 400 before any write).  The handler's own exception
scope has no `IntegrityError` branch: a failure at commit time, a
uniqueness race included, yields the generic 500 after rollback. -/
def create_user (user : UserCreate) (current_user : TokenData) (db : DB)
    (newId : Int) (outcome : CommitOutcome) : DB × Except HTTPError User :=
  match get_admin_user current_user with
  | .error e => (db, .error e)
  | .ok _ =>
    match db.users.find? (fun u => u.email == user.email) with
    | some _ => (db, .error ⟨400, "Cet email est déjà enregistré", false⟩)
    | none =>
      match outcome with
      | .ok =>
        let db_user : User :=
          { id := newId, email := user.email, role := user.role,
            hashed_password := hash_password user.password, name := user.name,
            city := user.city, is_active := true }
        ({ db with users := db.users ++ [db_user] }, .ok db_user)
      | _ => (db, .error (server_error "Exception"))

/-- `GET /users/{id}`: the admin-or-self check runs BEFORE the row is
looked up — the reverse of the owned-resource endpoints' ordering. -/
def read_user (user_id : Int) (current_user : TokenData) (db : DB) :
    Except HTTPError User :=
  if current_user.role ≠ "admin" ∧ current_user.id ≠ some user_id then
    .error ⟨403, "Accès non autorisé à cet utilisateur", false⟩
  else
    match db.users.find? (fun u => u.id == user_id) with
    | none => .error ⟨404, "Utilisateur non trouvé", false⟩
    | some db_user => .ok db_user

/-- `setattr` loop of `update_user` over `model_dump(exclude_unset)`;
a supplied password is popped and stored hashed. -/
def applyUserUpdate (upd : UserUpdate) (u : User) : User :=
  { u with
    email := upd.email.getD u.email
    hashed_password := match upd.password with
                       | some p => hash_password p
                       | none => u.hashed_password
    role := upd.role.getD u.role
    name := upd.name.getD u.name
    city := upd.city.getD u.city
    is_active := upd.is_active.getD u.is_active }

/-- The response the role guard of `update_user` actually produces: the
`HTTPException(403, "Seul un administrateur peut modifier le rôle")` is
raised INSIDE the `try` block, so the handler's own catch-all
`except Exception` intercepts it, rolls back, and re-raises it as the
generic 500 whose detail interpolates `str(e)`. -/
def role_change_500 : HTTPError :=
  server_error "403: Seul un administrateur peut modifier le rôle"

/-- `PUT /users/{id}`: admin-or-self check before the lookup (403 is
issued whether or not the row exists), 404 on a missing row, then the
guarded write.  Only the `role` field is guarded — `is_active` is set
like any other field — and the guard's rejection surfaces as
`role_change_500`, not as a 403. -/
def update_user (user_id : Int) (user_update : UserUpdate)
    (current_user : TokenData) (db : DB) (outcome : CommitOutcome) :
    DB × Except HTTPError User :=
  if current_user.role ≠ "admin" ∧ current_user.id ≠ some user_id then
    (db, .error ⟨403, "Accès non autorisé à cet utilisateur", false⟩)
  else
    match db.users.find? (fun u => u.id == user_id) with
    | none => (db, .error ⟨404, "Utilisateur non trouvé", false⟩)
    | some db_user =>
      if user_update.role.isSome ∧ current_user.role ≠ "admin" then
        (db, .error role_change_500)
      else
        match outcome with
        | .ok =>
          ({ db with users := db.users.map fun u =>
              if u.id = user_id then applyUserUpdate user_update u else u },
           .ok (applyUserUpdate user_update db_user))
        | _ => (db, .error (server_error "Exception"))

/-- `DELETE /users/{id}` (admin-only dependency). -/
def delete_user (user_id : Int) (current_user : TokenData) (db : DB)
    (outcome : CommitOutcome) : DB × Except HTTPError Unit :=
  match get_admin_user current_user with
  | .error e => (db, .error e)
  | .ok _ =>
    match db.users.find? (fun u => u.id == user_id) with
    | none => (db, .error ⟨404, "Utilisateur non trouvé", false⟩)
    | some _ =>
      match outcome with
      | .ok =>
        ({ db with users := db.users.filter fun u => !(u.id == user_id) }, .ok ())
      | _ => (db, .error (server_error "Exception"))

/-! ### Login endpoints (`src/routers/auth.py` and the `src/main.py`
revision) -/

structure TokenResponse where
  access_token : JWT
  token_type : String
deriving Repr, DecidableEq

def get_user_by_email (db : DB) (email : String) : Option User :=
  db.users.find? (fun u => u.email == email)

/-- `POST /token` of the routers revision (`src/routers/auth.py`):
unknown email and wrong password produce the same generic 401 with the
Bearer challenge; an inactive account is rejected after the password
check with its own message; otherwise a token is issued carrying
`sub = str(id)`, `role`, `city`. -/
def login_for_access_token (username password : String) (db : DB) (now : Int) :
    Except HTTPError TokenResponse :=
  match get_user_by_email db username with
  | none => .error ⟨401, "Email ou mot de passe incorrect", true⟩
  | some user =>
    if verify_password password user.hashed_password = false then
      .error ⟨401, "Email ou mot de passe incorrect", true⟩
    else if user.is_active = false then
      .error ⟨401, "Compte utilisateur inactif", true⟩
    else
      .ok { access_token := create_access_token (some (pyStr user.id))
              (some user.role) (some user.city) now,
            token_type := "bearer" }

/-- `POST /token` of the `src/main.py` revision: a single combined
`not user or not verify_password(..)` check with one shared 401; no
active-flag check. -/
def login_for_access_token_main (username password : String) (db : DB)
    (now : Int) : Except HTTPError TokenResponse :=
  match get_user_by_email db username with
  | none => .error ⟨401, "Incorrect email or password", true⟩
  | some user =>
    if verify_password password user.hashed_password = false then
      .error ⟨401, "Incorrect email or password", true⟩
    else
      .ok { access_token := create_access_token (some (pyStr user.id))
              (some user.role) (some user.city) now,
            token_type := "bearer" }

/-- Handler results are compared in witnesses; `Except` needs decidable
equality for that. -/
instance {ε α : Type} [DecidableEq ε] [DecidableEq α] :
    DecidableEq (Except ε α) := fun a b =>
  match a, b with
  | .error x, .error y =>
    if h : x = y then isTrue (congrArg Except.error h)
    else isFalse (fun hc => h (by cases hc; rfl))
  | .ok x, .ok y =>
    if h : x = y then isTrue (congrArg Except.ok h)
    else isFalse (fun hc => h (by cases hc; rfl))
  | .error _, .ok _ => isFalse (fun hc => Except.noConfusion hc)
  | .ok _, .error _ => isFalse (fun hc => Except.noConfusion hc)

/-! ### Sample data -/

def c1_claim : TokenData := { id := some 1, role := "franchise" }

def c1_clientA : Client := { id := 1, user_id := 1, name := "A", business_category := "food" }

def c1_clientB : Client := { id := 2, user_id := 2, name := "B", business_category := "tech" }

def c1_db : DB := { clients := [c1_clientA, c1_clientB] }

/-! ### Claims -/

/-- C1: for every non-admin claim the list endpoints `GET /clients/`,
`GET /prospects/` and `GET /content-items/` return only rows whose
owner's id equals the claim's subject id — for content items the owner
is the parent Client's `user_id` — while an admin claim sees the full
collection subject only to `skip`/`limit`. -/
theorem C1_list_ownership :
    (∀ (cu : TokenData) (db : DB) (skip limit : Nat), cu.role ≠ "admin" →
      (∀ c ∈ read_clients cu db skip limit, some c.user_id = cu.id) ∧
      (∀ p ∈ read_prospects cu db skip limit, some p.user_id = cu.id) ∧
      (∀ (cid : Option Int), ∀ ci ∈ read_content_items cu db cid skip limit,
        ∃ c ∈ db.clients, c.id = ci.client_id ∧ some c.user_id = cu.id)) ∧
    (∀ (cu : TokenData) (db : DB) (skip limit : Nat), cu.role = "admin" →
      read_clients cu db skip limit = (db.clients.drop skip).take limit ∧
      read_prospects cu db skip limit = (db.prospects.drop skip).take limit ∧
      read_content_items cu db none skip limit = (db.content_items.drop skip).take limit) := by
  constructor
  · intro cu db skip limit h
    refine ⟨?_, ?_, ?_⟩
    · intro c hc
      rw [read_clients, if_neg h] at hc
      have hmem := List.mem_filter.mp (List.mem_of_mem_drop (List.mem_of_mem_take hc))
      exact eq_of_beq hmem.2
    · intro p hp
      rw [read_prospects, if_neg h] at hp
      have hmem := List.mem_filter.mp (List.mem_of_mem_drop (List.mem_of_mem_take hp))
      exact eq_of_beq hmem.2
    · intro cid ci hci
      simp only [read_content_items, if_pos h] at hci
      have hmem := List.mem_filter.mp (List.mem_of_mem_drop (List.mem_of_mem_take hci))
      obtain ⟨c, hcmem, hpred⟩ := List.any_eq_true.mp hmem.2
      rw [Bool.and_eq_true] at hpred
      exact ⟨c, hcmem, eq_of_beq hpred.1, eq_of_beq hpred.2⟩
  · intro cu db skip limit h
    refine ⟨?_, ?_, ?_⟩
    · rw [read_clients, if_pos h]
    · rw [read_prospects, if_pos h]
    · simp only [read_content_items, h]
      rw [if_neg (by simp)]

/-- Witness for C1: the non-admin sample claim (subject id 1) receives,
from the sample store holding clients of two different owners, only rows
it owns. -/
theorem C1_list_ownership_witness : some c1_clientA.user_id = c1_claim.id :=
  (C1_list_ownership.1 c1_claim c1_db 0 100 (by decide)).1 c1_clientA (by decide)

def c2_user_row : User :=
  { id := 1, email := "a@x", role := "user",
    hashed_password := hash_password "pw", name := "Al", city := "Paris",
    is_active := true }

def c2_db : DB := { users := [c2_user_row] }

def c2_claim : TokenData := { id := some 1, role := "user" }

def c2_upd_active : UserUpdate := { is_active := some false }

def c2_upd_role : UserUpdate := { role := some "admin" }

def c2_user_row_after : User :=
  { id := 1, email := "a@x", role := "user",
    hashed_password := hash_password "pw", name := "Al", city := "Paris",
    is_active := false }

def c2_db_after : DB := { users := [c2_user_row_after] }

/-- C2 counterexample: a non-admin self-update whose body sets only the
`is_active` flag is NOT rejected with 403 — it succeeds and flips the
stored flag, refuting the claim that any body touching `role` or
`is_active` is rejected with no field changed. -/
theorem C2_counterexample :
    (update_user 1 c2_upd_active c2_claim c2_db .ok).2 = .ok c2_user_row_after ∧
    (update_user 1 c2_upd_active c2_claim c2_db .ok).1 = c2_db_after ∧
    c2_user_row.is_active = true ∧ c2_user_row_after.is_active = false := by decide

/-- C2 (amended): on a non-admin self-update only the `role` field is
guarded; a body setting `role` is rejected atomically (the store is
untouched) but with the 500-class `role_change_500` response — the 403
raised inside the `try` block is converted by the catch-all handler —
while a body not setting `role` (one setting `is_active` included) is
applied, `is_active` like any other field. -/
theorem C2_role_guard_amended :
    (∀ (cu : TokenData) (db : DB) (uid : Int) (upd : UserUpdate) (u : User)
        (outcome : CommitOutcome),
      cu.role ≠ "admin" → cu.id = some uid →
      db.users.find? (fun x => x.id == uid) = some u →
      upd.role.isSome = true →
      update_user uid upd cu db outcome = (db, .error role_change_500) ∧
      role_change_500.status_code = 500) ∧
    (∀ (cu : TokenData) (db : DB) (uid : Int) (upd : UserUpdate) (u : User),
      cu.role ≠ "admin" → cu.id = some uid →
      db.users.find? (fun x => x.id == uid) = some u →
      upd.role = none →
      (update_user uid upd cu db .ok).2 = .ok (applyUserUpdate upd u) ∧
      (applyUserUpdate upd u).is_active = upd.is_active.getD u.is_active) := by
  constructor
  · intro cu db uid upd u outcome h1 h2 hfind hrole
    have hpre : ¬(cu.role ≠ "admin" ∧ cu.id ≠ some uid) := by
      rintro ⟨_, hq⟩; exact hq h2
    refine ⟨?_, rfl⟩
    simp only [update_user, if_neg hpre, hfind]
    rw [if_pos ⟨hrole, h1⟩]
  · intro cu db uid upd u h1 h2 hfind hrole
    have hpre : ¬(cu.role ≠ "admin" ∧ cu.id ≠ some uid) := by
      rintro ⟨_, hq⟩; exact hq h2
    have hguard : ¬(upd.role.isSome = true ∧ cu.role ≠ "admin") := by
      rintro ⟨hq, _⟩; rw [hrole] at hq; exact Bool.false_ne_true hq
    simp only [update_user, if_neg hpre, hfind, if_neg hguard]
    exact ⟨by trivial, by trivial⟩

/-- Witness for C2 (amended): at the concrete non-admin self-update, a
role-setting body produces the 500-class rejection with the store
unchanged, and an `is_active`-setting body goes through. -/
theorem C2_role_guard_amended_witness :
    (update_user 1 c2_upd_role c2_claim c2_db .ok =
      (c2_db, .error role_change_500)) ∧
    (update_user 1 c2_upd_active c2_claim c2_db .ok).2 =
      .ok (applyUserUpdate c2_upd_active c2_user_row) :=
  ⟨(C2_role_guard_amended.1 c2_claim c2_db 1 c2_upd_role c2_user_row .ok
      (by decide) (by decide) (by decide) (by decide)).1,
   (C2_role_guard_amended.2 c2_claim c2_db 1 c2_upd_active c2_user_row
      (by decide) (by decide) (by decide) (by decide)).1⟩

def c3_claim : TokenData := { id := some 1, role := "user" }

def c3_db : DB := {}

/-- C3 counterexample: with an empty store — so no user row with id 2
exists — a non-admin claim for subject 1 calling `GET /users/2` gets
403, not the 404 the claim requires for a missing row: on the users
endpoints the ownership check runs before the existence check. -/
theorem C3_counterexample :
    read_user 2 c3_claim c3_db =
      .error ⟨403, "Accès non autorisé à cet utilisateur", false⟩ ∧
    c3_db.users.find? (fun u => u.id == 2) = none := by decide

/-- C3 (amended): for the owned resources — clients, prospects, content
items — every single-row read/update/delete endpoint checks existence
first (404 on a missing primary key, for every claim) and only then
ownership, so a 403 there implies the row exists; the `/users/{id}` read
and update endpoints instead apply the admin-or-self check before the
lookup and answer 403 regardless of whether the row exists. -/
theorem C3_existence_before_ownership_amended :
    (∀ (cu : TokenData) (db : DB) (i : Int),
      db.clients.find? (fun c => c.id == i) = none →
        read_client cu db i = .error ⟨404, "Client non trouvé", false⟩ ∧
        (∀ upd outcome, update_client cu upd db i outcome =
          (db, .error ⟨404, "Client non trouvé", false⟩)) ∧
        (∀ outcome, delete_client cu db i outcome =
          (db, .error ⟨404, "Client non trouvé", false⟩))) ∧
    (∀ (cu : TokenData) (db : DB) (i : Int),
      db.prospects.find? (fun p => p.id == i) = none →
        read_prospect cu i db = .error ⟨404, "Prospect non trouvé", false⟩ ∧
        (∀ upd outcome, update_prospect upd cu i db outcome =
          (db, .error ⟨404, "Prospect non trouvé", false⟩)) ∧
        (∀ outcome, delete_prospect cu i db outcome =
          (db, .error ⟨404, "Prospect non trouvé", false⟩))) ∧
    (∀ (cu : TokenData) (db : DB) (i : Int),
      db.content_items.find? (fun ci => ci.id == i) = none →
        read_content_item db i cu = .error ⟨404, "Contenu non trouvé", false⟩ ∧
        (∀ upd outcome, update_content_item upd i cu db outcome =
          (db, .error ⟨404, "Contenu non trouvé", false⟩)) ∧
        (∀ outcome, delete_content_item i cu db outcome =
          (db, .error ⟨404, "Contenu non trouvé", false⟩))) ∧
    (∀ (cu : TokenData) (db : DB) (i : Int) (e : HTTPError),
      read_client cu db i = .error e → e.status_code = 403 →
        (db.clients.find? (fun c => c.id == i)).isSome = true) ∧
    (∀ (cu : TokenData) (db : DB) (i : Int),
      cu.role ≠ "admin" → cu.id ≠ some i →
        read_user i cu db =
          .error ⟨403, "Accès non autorisé à cet utilisateur", false⟩ ∧
        ∀ upd outcome, update_user i upd cu db outcome =
          (db, .error ⟨403, "Accès non autorisé à cet utilisateur", false⟩)) := by
  refine ⟨?_, ?_, ?_, ?_, ?_⟩
  · intro cu db i hf
    exact ⟨by rw [read_client, hf],
      fun upd outcome => by cases outcome <;> rw [update_client, hf] <;> decide,
      fun outcome => by cases outcome <;> rw [delete_client, hf] <;> decide⟩
  · intro cu db i hf
    exact ⟨by rw [read_prospect, hf],
      fun upd outcome => by cases outcome <;> rw [update_prospect, hf] <;> decide,
      fun outcome => by cases outcome <;> rw [delete_prospect, hf] <;> decide⟩
  · intro cu db i hf
    exact ⟨by rw [read_content_item, hf],
      fun upd outcome => by cases outcome <;> rw [update_content_item, hf] <;> decide,
      fun outcome => by cases outcome <;> rw [delete_content_item, hf] <;> decide⟩
  · intro cu db i e hresp hstatus
    cases hf : db.clients.find? (fun c => c.id == i) with
    | none =>
      rw [read_client, hf] at hresp
      cases hresp
      exact absurd hstatus (by decide)
    | some c => rfl
  · intro cu db i hrole hid
    exact ⟨by rw [read_user, if_pos ⟨hrole, hid⟩],
      fun upd outcome => by rw [update_user, if_pos ⟨hrole, hid⟩]⟩

/-- Witness for C3 (amended): concrete instantiations — a missing client
id yields 404 for any claim, and the users endpoint yields 403 for a
non-admin with a foreign id. -/
theorem C3_existence_before_ownership_amended_witness :
    read_client c3_claim c3_db 7 = .error ⟨404, "Client non trouvé", false⟩ ∧
    read_user 2 c3_claim c3_db =
      .error ⟨403, "Accès non autorisé à cet utilisateur", false⟩ :=
  ⟨(C3_existence_before_ownership_amended.1 c3_claim c3_db 7 (by decide)).1,
   (C3_existence_before_ownership_amended.2.2.2.2 c3_claim c3_db 2
      (by decide) (by decide)).1⟩

def c4_admin : TokenData := { id := some 9, role := "admin" }

def c4_client : Client := { id := 1, user_id := 2, name := "A", business_category := "b" }

def c4_db : DB := { clients := [c4_client] }

def c4_upd : ClientCreate := { name := "A2", business_category := "b" }

def c4_user_new : UserCreate :=
  { email := "new@x", password := "secret", name := "N", city := "Paris" }

/-- C4 counterexample: a uniqueness violation at the commit of
`PUT /clients/{id}` is answered with the generic 500, not with the
400-class duplicate error the claim asserts for update operations. -/
theorem C4_counterexample :
    update_client c4_admin c4_upd c4_db 1 .integrityError =
      (c4_db, .error (server_error "Exception")) ∧
    (server_error "Exception").status_code = 500 := by decide

/-- C4 (amended): every mutating handler leaves the store unchanged on
any commit failure (rollback), and the failure maps to a response as
follows: the creates of clients, prospects and content items answer an
`IntegrityError` with a 400-class duplicate error and any other failure
with the generic 500; the update and delete handlers, and `create_user`
— whose duplicate handling is a pre-check answering 400 BEFORE the
write — have no `IntegrityError` branch and answer every commit
failure, a uniqueness violation included, with the generic 500. -/
theorem C4_failure_handling_amended :
    (∀ cc cu db newId, ((create_client cc cu db newId .integrityError).1 = db ∧
        (create_client cc cu db newId .otherError).1 = db) ∧
      create_client cc cu db newId .integrityError =
        (db, .error ⟨400, "Une erreur est survenue lors de la création du client", false⟩) ∧
      create_client cc cu db newId .otherError =
        (db, .error (server_error "Exception"))) ∧
    (∀ pc cu db newId, ((create_prospect pc cu db newId .integrityError).1 = db ∧
        (create_prospect pc cu db newId .otherError).1 = db) ∧
      create_prospect pc cu db newId .integrityError =
        (db, .error ⟨400, "Une erreur est survenue lors de la création du prospect", false⟩) ∧
      create_prospect pc cu db newId .otherError =
        (db, .error (server_error "Exception"))) ∧
    (∀ cic cid cu db newId,
      (create_content_item cic cid cu db newId .integrityError).1 = db ∧
      (create_content_item cic cid cu db newId .otherError).1 = db) ∧
    (∀ cu upd db i, (update_client cu upd db i .integrityError).1 = db ∧
      (update_client cu upd db i .otherError).1 = db) ∧
    (∀ cu db i, (delete_client cu db i .integrityError).1 = db ∧
      (delete_client cu db i .otherError).1 = db) ∧
    (∀ upd cu i db, (update_prospect upd cu i db .integrityError).1 = db ∧
      (update_prospect upd cu i db .otherError).1 = db) ∧
    (∀ cu i db, (delete_prospect cu i db .integrityError).1 = db ∧
      (delete_prospect cu i db .otherError).1 = db) ∧
    (∀ upd i cu db, (update_content_item upd i cu db .integrityError).1 = db ∧
      (update_content_item upd i cu db .otherError).1 = db) ∧
    (∀ i cu db, (delete_content_item i cu db .integrityError).1 = db ∧
      (delete_content_item i cu db .otherError).1 = db) ∧
    (∀ user cu db newId, (create_user user cu db newId .integrityError).1 = db ∧
      (create_user user cu db newId .otherError).1 = db) ∧
    (∀ i upd cu db, (update_user i upd cu db .integrityError).1 = db ∧
      (update_user i upd cu db .otherError).1 = db) ∧
    (∀ i cu db, (delete_user i cu db .integrityError).1 = db ∧
      (delete_user i cu db .otherError).1 = db) ∧
    (∀ cic cid cu db newId (client : Client),
      db.clients.find? (fun c => c.id == cid) = some client → cu.role = "admin" →
      create_content_item cic cid cu db newId .integrityError =
        (db, .error ⟨400, "Une erreur est survenue lors de la création du contenu", false⟩) ∧
      create_content_item cic cid cu db newId .otherError =
        (db, .error (server_error "Exception"))) ∧
    (∀ cu upd db i (c : Client),
      db.clients.find? (fun x => x.id == i) = some c → cu.role = "admin" →
      update_client cu upd db i .integrityError = (db, .error (server_error "Exception")) ∧
      update_client cu upd db i .otherError = (db, .error (server_error "Exception")) ∧
      (server_error "Exception").status_code = 500) ∧
    (∀ cu db i (c : Client),
      db.clients.find? (fun x => x.id == i) = some c → cu.role = "admin" →
      delete_client cu db i .integrityError = (db, .error (server_error "Exception")) ∧
      delete_client cu db i .otherError = (db, .error (server_error "Exception"))) ∧
    (∀ user cu db newId, cu.role = "admin" →
      db.users.find? (fun u => u.email == UserCreate.email user) = none →
      create_user user cu db newId .integrityError = (db, .error (server_error "Exception")) ∧
      create_user user cu db newId .otherError = (db, .error (server_error "Exception"))) ∧
    (∀ i upd cu db (u : User), cu.role = "admin" →
      db.users.find? (fun x => x.id == i) = some u →
      update_user i upd cu db .integrityError = (db, .error (server_error "Exception")) ∧
      update_user i upd cu db .otherError = (db, .error (server_error "Exception"))) ∧
    (∀ upd cu i db (p : Prospect),
      db.prospects.find? (fun x => x.id == i) = some p → cu.role = "admin" →
      update_prospect upd cu i db .integrityError = (db, .error (server_error "Exception")) ∧
      update_prospect upd cu i db .otherError = (db, .error (server_error "Exception"))) ∧
    (∀ cu i db (p : Prospect),
      db.prospects.find? (fun x => x.id == i) = some p → cu.role = "admin" →
      delete_prospect cu i db .integrityError = (db, .error (server_error "Exception")) ∧
      delete_prospect cu i db .otherError = (db, .error (server_error "Exception"))) ∧
    (∀ upd i cu db (ci : ContentItem),
      db.content_items.find? (fun x => x.id == i) = some ci → cu.role = "admin" →
      update_content_item upd i cu db .integrityError =
        (db, .error (server_error "Exception")) ∧
      update_content_item upd i cu db .otherError =
        (db, .error (server_error "Exception"))) ∧
    (∀ i cu db (ci : ContentItem),
      db.content_items.find? (fun x => x.id == i) = some ci → cu.role = "admin" →
      delete_content_item i cu db .integrityError =
        (db, .error (server_error "Exception")) ∧
      delete_content_item i cu db .otherError =
        (db, .error (server_error "Exception"))) ∧
    (∀ i cu db (u : User), cu.role = "admin" →
      db.users.find? (fun x => x.id == i) = some u →
      delete_user i cu db .integrityError = (db, .error (server_error "Exception")) ∧
      delete_user i cu db .otherError = (db, .error (server_error "Exception"))) := by
  refine ⟨?_, ?_, ?_, ?_, ?_, ?_, ?_, ?_, ?_, ?_, ?_, ?_, ?_, ?_, ?_, ?_, ?_, ?_, ?_,
    ?_, ?_, ?_⟩
  · intro cc cu db newId
    exact ⟨⟨rfl, rfl⟩, rfl, rfl⟩
  · intro pc cu db newId
    exact ⟨⟨rfl, rfl⟩, rfl, rfl⟩
  · intro cic cid cu db newId
    constructor <;> (delta create_content_item; repeat' split) <;> first | rfl | simp_all
  · intro cu upd db i
    constructor <;> (delta update_client; repeat' split) <;> first | rfl | simp_all
  · intro cu db i
    constructor <;> (delta delete_client; repeat' split) <;> first | rfl | simp_all
  · intro upd cu i db
    constructor <;> (delta update_prospect; repeat' split) <;> first | rfl | simp_all
  · intro cu i db
    constructor <;> (delta delete_prospect; repeat' split) <;> first | rfl | simp_all
  · intro upd i cu db
    constructor <;> (delta update_content_item; repeat' split) <;> first | rfl | simp_all
  · intro i cu db
    constructor <;> (delta delete_content_item; repeat' split) <;> first | rfl | simp_all
  · intro user cu db newId
    constructor <;> (delta create_user; repeat' split) <;> first | rfl | simp_all
  · intro i upd cu db
    constructor <;> (delta update_user; repeat' split) <;> first | rfl | simp_all
  · intro i cu db
    constructor <;> (delta delete_user; repeat' split) <;> first | rfl | simp_all
  · intro cic cid cu db newId client hf hrole
    have hpre : ¬(cu.role ≠ "admin" ∧ some client.user_id ≠ cu.id) := by
      rintro ⟨ha, _⟩; exact ha hrole
    simp only [create_content_item, hf, if_neg hpre]
    exact ⟨by trivial, by trivial⟩
  · intro cu upd db i c hf hrole
    have hpre : ¬(cu.role ≠ "admin" ∧ some c.user_id ≠ cu.id) := by
      rintro ⟨ha, _⟩; exact ha hrole
    simp only [update_client, hf, if_neg hpre]
    exact ⟨by trivial, by trivial, by trivial⟩
  · intro cu db i c hf hrole
    have hpre : ¬(cu.role ≠ "admin" ∧ some c.user_id ≠ cu.id) := by
      rintro ⟨ha, _⟩; exact ha hrole
    simp only [delete_client, hf, if_neg hpre]
    exact ⟨by trivial, by trivial⟩
  · intro user cu db newId hrole hdup
    have hadm : get_admin_user cu = .ok cu := by
      rw [get_admin_user, if_neg (by rw [hrole]; exact fun hq => hq rfl)]
    simp only [create_user, hadm, hdup]
    exact ⟨by trivial, by trivial⟩
  · intro i upd cu db u hrole hf
    have hguard : ¬(upd.role.isSome = true ∧ cu.role ≠ "admin") := by
      rintro ⟨_, hq⟩; exact hq hrole
    have hpre : ¬(cu.role ≠ "admin" ∧ cu.id ≠ some i) := by
      rintro ⟨ha, _⟩; exact ha hrole
    simp only [update_user, if_neg hpre, hf, if_neg hguard]
    exact ⟨by trivial, by trivial⟩
  · intro upd cu i db p hf hrole
    have hpre : ¬(cu.role ≠ "admin" ∧ some p.user_id ≠ cu.id) := by
      rintro ⟨ha, _⟩; exact ha hrole
    simp only [update_prospect, hf, if_neg hpre]
    exact ⟨by trivial, by trivial⟩
  · intro cu i db p hf hrole
    have hpre : ¬(cu.role ≠ "admin" ∧ some p.user_id ≠ cu.id) := by
      rintro ⟨ha, _⟩; exact ha hrole
    simp only [delete_prospect, hf, if_neg hpre]
    exact ⟨by trivial, by trivial⟩
  · intro upd i cu db ci hf hrole
    have hpre : ¬(cu.role ≠ "admin") := fun ha => ha hrole
    simp only [update_content_item, hf, if_neg hpre, update_content_item_write]
    exact ⟨by trivial, by trivial⟩
  · intro i cu db ci hf hrole
    have hpre : ¬(cu.role ≠ "admin") := fun ha => ha hrole
    simp only [delete_content_item, hf, if_neg hpre, delete_content_item_write]
    exact ⟨by trivial, by trivial⟩
  · intro i cu db u hrole hf
    have hadm : get_admin_user cu = .ok cu := by
      rw [get_admin_user, if_neg (by rw [hrole]; exact fun hq => hq rfl)]
    simp only [delete_user, hadm, hf]
    exact ⟨by trivial, by trivial⟩

/-- Witness for C4 (amended): at a concrete store and admin claim, an
`IntegrityError` during a client update and during a user creation both
produce the 500 response with the store unchanged. -/
theorem C4_failure_handling_amended_witness :
    update_client c4_admin c4_upd c4_db 1 .otherError =
      (c4_db, .error (server_error "Exception")) ∧
    create_user c4_user_new c4_admin c4_db 5 .integrityError =
      (c4_db, .error (server_error "Exception")) :=
  ⟨(C4_failure_handling_amended.2.2.2.2.2.2.2.2.2.2.2.2.2.1 c4_admin c4_upd
      c4_db 1 c4_client (by decide) (by decide)).2.1,
   (C4_failure_handling_amended.2.2.2.2.2.2.2.2.2.2.2.2.2.2.2.1 c4_user_new
      c4_admin c4_db 5 (by decide) (by decide)).1⟩

/-- C5: issue-then-verify round trip — a token produced by
`create_access_token` with payload `sub = str(id)`, `role`, `city`,
verified by `get_current_user` at any instant up to its expiry, yields a
`TokenData` claim with exactly the id, role and city that were passed
in. -/
theorem C5_token_roundtrip (uid : Int) (role : String) (city : Option String)
    (tIssue tVerify : Int) (h : tVerify ≤ tIssue + 3600) :
    get_current_user
        (create_access_token (some (pyStr uid)) (some role) city tIssue) tVerify =
      .ok { id := some uid, role := role, city := city } := by
  have hexp : ¬(tIssue + ACCESS_TOKEN_EXPIRE_MINUTES * 60 < tVerify) := by
    rw [ACCESS_TOKEN_EXPIRE_MINUTES]; omega
  simp only [get_current_user, create_access_token, if_neg hexp, pyInt?_pyStr]
  rw [if_neg (by simp)]

/-- Witness for C5 at subject id 42, role `franchise`, city `Paris`,
issued at 0 and verified at 1800 seconds. -/
theorem C5_token_roundtrip_witness :
    get_current_user
        (create_access_token (some (pyStr 42)) (some "franchise") (some "Paris") 0) 1800 =
      .ok { id := some 42, role := "franchise", city := some "Paris" } :=
  C5_token_roundtrip 42 "franchise" (some "Paris") 0 1800 (by norm_num)

def c6_token : JWT := { sub := some "1", role := some "user", exp := 100, sigOk := true }

/-- C6: a signed token whose embedded expiry lies in the past is
rejected with the dedicated expiry response, which differs from the
generic `Malformed` credentials response (bad signature, missing `sub`
or `role`, unparseable subject id); and verification only ever succeeds
on a signed, unexpired token whose `sub` and `role` are present and
whose `sub` parses — every failure during parsing is a rejection, never
a claim. -/
theorem C6_expired_distinct :
    (∀ (token : JWT) (now : Int), token.sigOk = true → token.exp < now →
      get_current_user token now = .error expired_exception) ∧
    expired_exception ≠ credentials_exception ∧
    (∀ (token : JWT) (now : Int) (td : TokenData),
      get_current_user token now = .ok td →
      token.sigOk = true ∧ ¬ token.exp < now ∧
      ∃ s r uid, token.sub = some s ∧ token.role = some r ∧
        pyInt? s = some uid ∧
        td = { id := some uid, role := r, city := token.city }) := by
  refine ⟨?_, by decide, ?_⟩
  · intro token now hsig hexp
    rw [get_current_user, if_neg (by rw [hsig]; decide), if_pos hexp]
  · intro token now td h
    rw [get_current_user] at h
    split_ifs at h with hsig hexp
    have hsig' : token.sigOk = true := by
      cases hq : token.sigOk
      · exact absurd hq hsig
      · rfl
    refine ⟨hsig', hexp, ?_⟩
    rcases hsub : token.sub with _ | s <;>
      rcases hrole : token.role with _ | r <;>
      simp only [hsub, hrole] at h <;>
      try exact absurd h (fun hc => Except.noConfusion hc)
    rcases hpi : pyInt? s with _ | uid <;> simp only [hpi] at h <;>
      try exact absurd h (fun hc => Except.noConfusion hc)
    refine ⟨s, r, uid, rfl, rfl, hpi, ?_⟩
    cases h
    rfl

/-- Witness for C6: the sample signed token with expiry 100 verified at
time 200 is rejected with the dedicated expiry response. -/
theorem C6_expired_distinct_witness :
    get_current_user c6_token 200 = .error expired_exception :=
  C6_expired_distinct.1 c6_token 200 (by decide) (by decide)

def c7_owner : User :=
  { id := 1, email := "o@x", role := "franchise",
    hashed_password := hash_password "p", name := "O", city := "Paris",
    is_active := true }

def c7_client : Client := { id := 1, user_id := 1, name := "C", business_category := "b" }

def c7_db : DB := { users := [c7_owner], clients := [c7_client] }

def c7_claim : TokenData := { id := some 1, role := "franchise", city := some "Lyon" }

/-- C7 counterexample: a non-admin claim carrying the locale tag `Lyon`
lists clients and still receives the row whose owner's locale is
`Paris` — no implicit narrowing to the claim's locale takes place (and
`read_clients` exposes no city parameter an admin could filter by). -/
theorem C7_counterexample :
    read_clients c7_claim c7_db 0 100 = [c7_client] ∧
    c7_db.users.find? (fun u => u.id == c7_client.user_id) = some c7_owner ∧
    c7_owner.city = "Paris" ∧ c7_claim.city = some "Lyon" := by decide

/-- C7 (amended): the clients list endpoint performs no locale
filtering at all — its interface carries no city parameter, and the
result is entirely independent of the city tag on the caller's claim;
for a non-admin only the owner-id restriction applies. -/
theorem C7_no_locale_filter_amended :
    ∀ (idv : Option Int) (role : String) (city city' : Option String)
      (db : DB) (skip limit : Nat),
      read_clients { id := idv, role := role, city := city } db skip limit =
        read_clients { id := idv, role := role, city := city' } db skip limit := by
  intro idv role city city' db skip limit
  rfl

def c8_user : User :=
  { id := 2, email := "bob@x", role := "user",
    hashed_password := hash_password "right", name := "B", city := "Lyon",
    is_active := true }

def c8_db : DB := { users := [c8_user] }

/-- C8: an unknown email and a wrong password on a known active account
are indistinguishable at the response level — in both login revisions
the two requests receive literally the same 401 response, carrying the
`WWW-Authenticate: Bearer` header and one shared generic message, so the
response does not reveal whether the email exists. -/
theorem C8_login_indistinguishable
    (emailA pA emailB pB : String) (db : DB) (now : Int) (u : User)
    (hA : get_user_by_email db emailA = none)
    (hB : get_user_by_email db emailB = some u)
    (hpw : verify_password pB u.hashed_password = false)
    (hact : u.is_active = true) :
    login_for_access_token emailA pA db now =
      login_for_access_token emailB pB db now ∧
    login_for_access_token emailA pA db now =
      .error ⟨401, "Email ou mot de passe incorrect", true⟩ ∧
    login_for_access_token_main emailA pA db now =
      login_for_access_token_main emailB pB db now ∧
    login_for_access_token_main emailA pA db now =
      .error ⟨401, "Incorrect email or password", true⟩ := by
  simp only [login_for_access_token, login_for_access_token_main, hA, hB, hpw]
  exact ⟨by trivial, by trivial, by trivial, by trivial⟩

/-- Witness for C8: with the sample store (one active user `bob@x` whose
password is `right`), a login for the unknown `ghost@x` and a login for
`bob@x` with the wrong password `wrong` receive identical responses. -/
theorem C8_login_indistinguishable_witness :
    login_for_access_token "ghost@x" "p1" c8_db 0 =
      login_for_access_token "bob@x" "wrong" c8_db 0 ∧
    login_for_access_token "ghost@x" "p1" c8_db 0 =
      .error ⟨401, "Email ou mot de passe incorrect", true⟩ ∧
    login_for_access_token_main "ghost@x" "p1" c8_db 0 =
      login_for_access_token_main "bob@x" "wrong" c8_db 0 ∧
    login_for_access_token_main "ghost@x" "p1" c8_db 0 =
      .error ⟨401, "Incorrect email or password", true⟩ :=
  C8_login_indistinguishable "ghost@x" "p1" "bob@x" "wrong" c8_db 0 c8_user
    (by decide) (by decide) (by decide) (by decide)

def c9_claim : TokenData := { id := some 1, role := "franchise" }

def c9_other_user : User :=
  { id := 2, email := "c@x", role := "user",
    hashed_password := hash_password "q", name := "C", city := "Nice",
    is_active := true }

def c9_db : DB := { users := [c9_other_user] }

/-- C9: for a non-admin claim and a foreign user id, `GET /users/{id}`
and `PUT /users/{id}` answer the 403 permission error as a constant —
the store is universally quantified and never consulted — so the
response is identical whether or not a row with that id exists, and
these endpoints never reveal the existence of another user id. -/
theorem C9_users_authz_before_lookup
    (cu : TokenData) (db : DB) (uid : Int)
    (hrole : cu.role ≠ "admin") (hid : cu.id ≠ some uid) :
    read_user uid cu db =
      .error ⟨403, "Accès non autorisé à cet utilisateur", false⟩ ∧
    ∀ (upd : UserUpdate) (outcome : CommitOutcome),
      update_user uid upd cu db outcome =
        (db, .error ⟨403, "Accès non autorisé à cet utilisateur", false⟩) := by
  exact ⟨by rw [read_user, if_pos ⟨hrole, hid⟩],
    fun upd outcome => by rw [update_user, if_pos ⟨hrole, hid⟩]⟩

/-- Witness for C9: the concrete non-admin claim for subject 1 gets the
same 403 from `GET /users/2` and `PUT /users/2` on a store where user 2
does exist. -/
theorem C9_users_authz_before_lookup_witness :
    read_user 2 c9_claim c9_db =
      .error ⟨403, "Accès non autorisé à cet utilisateur", false⟩ ∧
    update_user 2 {} c9_claim c9_db .ok =
      (c9_db, .error ⟨403, "Accès non autorisé à cet utilisateur", false⟩) :=
  ⟨(C9_users_authz_before_lookup c9_claim c9_db 2 (by decide) (by decide)).1,
   (C9_users_authz_before_lookup c9_claim c9_db 2 (by decide) (by decide)).2 {} .ok⟩

def c10_user : User :=
  { id := 3, email := "ina@x", role := "franchise",
    hashed_password := hash_password "pw10", name := "I", city := "Paris",
    is_active := false }

def c10_db : DB := { users := [c10_user] }

/-- C10: in the routers-revision login, a user whose `is_active` flag is
false is rejected with 401 even when email and password are correct, and
a token is only ever issued when the user exists, the password verifies
and the account is active. -/
theorem C10_inactive_login_rejected :
    (∀ (email pw : String) (db : DB) (now : Int) (u : User),
      get_user_by_email db email = some u →
      verify_password pw u.hashed_password = true →
      u.is_active = false →
      login_for_access_token email pw db now =
        .error ⟨401, "Compte utilisateur inactif", true⟩) ∧
    (∀ (email pw : String) (db : DB) (now : Int) (t : TokenResponse),
      login_for_access_token email pw db now = .ok t →
      ∃ u, get_user_by_email db email = some u ∧
        verify_password pw u.hashed_password = true ∧ u.is_active = true) := by
  constructor
  · intro email pw db now u hu hpw hact
    simp only [login_for_access_token, hu, hpw, hact]
    trivial
  · intro email pw db now t h
    rcases hu : get_user_by_email db email with _ | u <;>
      simp only [login_for_access_token, hu] at h
    · exact absurd h (fun hc => Except.noConfusion hc)
    · split_ifs at h with hpw hact
      refine ⟨u, rfl, ?_, ?_⟩
      · cases hq : verify_password pw u.hashed_password
        · exact absurd hq hpw
        · rfl
      · cases hq : u.is_active
        · exact absurd hq hact
        · rfl

/-- Witness for C10: the sample inactive user is refused a token even
with the correct password. -/
theorem C10_inactive_login_rejected_witness :
    login_for_access_token "ina@x" "pw10" c10_db 0 =
      .error ⟨401, "Compte utilisateur inactif", true⟩ :=
  C10_inactive_login_rejected.1 "ina@x" "pw10" c10_db 0 c10_user
    (by decide) (by decide) (by decide)

end CRM
